import Mathlib

/-!
Verification of the plant-identification model core
(`src/backend/models/bryoFormer.py` and `src/backend/models/plant_model.py`).

The development shallowly embeds the pieces of the code that the checked
properties are about: the block-stack layouts of the `BryoFormer` variants,
a shape-level semantics of the tensor operations used by the blocks, the
checkpoint key normalization and the try/except structure of
`PlantRecognitionModel.load_model`, and the post-softmax result construction
of `PlantRecognitionModel.predict`.
-/

namespace PlantApp

/-- Kind of one block in a `BryoFormer` block stack: a spectral-gating
`Block`, the `FreqTimeBridge`, or a reduced-attention `Block_attention`. -/
inductive BlockKind where
  | spectral : BlockKind
  | bridge : BlockKind
  | attention : BlockKind
deriving DecidableEq, Repr

/-- Block stack built by `BryoFormer.__init__` (bryoFormer.py lines 301-310):
four `Block`s, one `FreqTimeBridge`, then `Block_attention` for the indices
`range(5, depth)`, i.e. `depth - 5` of them. -/
def BryoFormer.blockKinds (depth : Nat) : List BlockKind :=
  List.replicate 4 .spectral ++ [.bridge] ++ List.replicate (depth - 5) .attention

/-- Block stack with which `BryoFormerV2.__init__` replaces the base stack:
three `Block`s, one `FreqTimeBridge`, four `Block_attention`s. -/
def BryoFormerV2.blockKinds : List BlockKind :=
  List.replicate 3 .spectral ++ [.bridge] ++ List.replicate 4 .attention

/-- Block stack of `BryoFormerV3.__init__`: two `Block`s, two
`FreqTimeBridge`s, eight `Block_attention`s. -/
def BryoFormerV3.blockKinds : List BlockKind :=
  List.replicate 2 .spectral ++ List.replicate 2 .bridge ++ List.replicate 8 .attention

/-- Block stack of `BryoFormerV4.__init__` (bryoFormer.py lines 499-516):
three `Block`s followed directly by nine `Block_attention`s, with no
`FreqTimeBridge` between them. -/
def BryoFormerV4.blockKinds : List BlockKind :=
  List.replicate 3 .spectral ++ List.replicate 9 .attention

/-- A block stack follows the three-phase ordering when it is a run of
spectral-gating blocks, then at least one bridge, then a run of
reduced-attention blocks. -/
def ThreePhase (l : List BlockKind) : Prop :=
  ∃ a b c, 1 ≤ b ∧
    l = List.replicate a .spectral ++ List.replicate b .bridge ++ List.replicate c .attention

/-! Checkpoint key normalization, from `PlantRecognitionModel.load_model`
(plant_model.py lines 54-63). Python strings are modeled as `List Char`. -/

/-- Python string type, modeled as a list of characters. -/
abbrev Str := List Char

/-- Wrapper pattern stripped first by `load_model`. -/
def modulePat : Str := ['m', 'o', 'd', 'u', 'l', 'e', '.']

/-- Wrapper pattern stripped second by `load_model`. -/
def modelPat : Str := ['m', 'o', 'd', 'e', 'l', '.']

/-- Model of Python `s.startswith(pat)`. -/
def startsWithChars : Str → Str → Bool
  | _, [] => true
  | [], _ :: _ => false
  | c :: cs, p :: ps => c = p && startsWithChars cs ps

/-- Key normalization from plant_model.py lines 56-62: strip a leading
`module.` (7 characters), else a leading `model.` (6 characters), else
leave the key unchanged. -/
def normalizeKey (k : Str) : Str :=
  if startsWithChars k modulePat then k.drop 7
  else if startsWithChars k modelPat then k.drop 6
  else k

/-- A key still carrying one of the wrapper patterns in front. -/
def wrapped (k : Str) : Bool :=
  startsWithChars k modulePat || startsWithChars k modelPat

/-! Shape-level semantics of the tensor operations used in bryoFormer.py.
A tensor shape is its list of dimension sizes; every operation returns
`none` exactly when the corresponding torch call raises. -/

/-- Tensor shape: the list of dimension sizes. -/
abbrev Shape := List Nat

/-- Broadcasting rule for one dimension pair (torch semantics). -/
def broadcastDim (a b : Nat) : Option Nat :=
  if a = b then some a
  else if a = 1 then some b
  else if b = 1 then some a
  else none

/-- Broadcasting of two reversed shapes (aligned from the trailing dim). -/
def broadcastRev : List Nat → List Nat → Option (List Nat)
  | [], t => some t
  | s, [] => some s
  | a :: s, b :: t => do
      let d ← broadcastDim a b
      let r ← broadcastRev s t
      some (d :: r)

/-- Shape of a broadcast elementwise operation (`+`, `*`) on two tensors. -/
def broadcastShapes (s t : Shape) : Option Shape :=
  (broadcastRev s.reverse t.reverse).map List.reverse

/-- Shape of `x.view(target)` / `x.reshape(target)`: the element counts must
agree. -/
def viewShape (s target : Shape) : Option Shape :=
  if s.prod = target.prod then some target else none

/-- Shape of `x.reshape(known..., -1)`: the known dimensions must divide the
element count evenly; the trailing dimension is inferred. -/
def reshapeTail (s known : Shape) : Option Shape :=
  if 0 < known.prod ∧ known.prod ∣ s.prod then
    some (known ++ [s.prod / known.prod])
  else none

/-- Shape of `nn.Conv2d(inC, outC, k, stride, pad)` on an NCHW tensor; fails
when the channel count mismatches or the output would be empty. -/
def conv2dShape (inC outC k stride pad : Nat) : Shape → Option Shape
  | [b, c, hh, ww] =>
      if c = inC ∧ k ≤ hh + 2 * pad ∧ k ≤ ww + 2 * pad ∧ 0 < stride then
        some [b, outC, (hh + 2 * pad - k) / stride + 1, (ww + 2 * pad - k) / stride + 1]
      else none
  | _ => none

/-- Shape of `nn.AvgPool2d(k, stride)`. -/
def avgPool2dShape (k stride : Nat) : Shape → Option Shape
  | [b, c, hh, ww] =>
      if k ≤ hh ∧ k ≤ ww ∧ 0 < stride then
        some [b, c, (hh - k) / stride + 1, (ww - k) / stride + 1]
      else none
  | _ => none

/-- Shape of `nn.BatchNorm2d(c)` (evaluation mode): identity on matching
channel count. -/
def batchNorm2dShape (c : Nat) : Shape → Option Shape
  | [b, c2, hh, ww] => if c2 = c then some [b, c2, hh, ww] else none
  | _ => none

/-- Shape of `nn.AdaptiveAvgPool2d(1)`. -/
def adaptiveAvgPool1Shape : Shape → Option Shape
  | [b, c, _, _] => some [b, c, 1, 1]
  | _ => none

/-- Last dimension of a shape. -/
def lastDim : Shape → Option Nat
  | [] => none
  | [d] => some d
  | _ :: d :: rest => lastDim (d :: rest)

/-- Shape of `nn.LayerNorm(d)`: identity on tensors whose last dimension is
`d`. -/
def layerNormShape (d : Nat) (s : Shape) : Option Shape :=
  if lastDim s = some d then some s else none

/-- Shape of `nn.Linear(inF, outF)`: replaces a matching last dimension. -/
def linearShape (inF outF : Nat) : Shape → Option Shape
  | [] => none
  | [d] => if d = inF then some [outF] else none
  | d :: d2 :: rest => (linearShape inF outF (d2 :: rest)).map (d :: ·)

/-- Shape of `x.transpose(1, 2)` on a rank-3 tensor. -/
def transpose12Shape : Shape → Option Shape
  | [a, b, c] => some [a, c, b]
  | _ => none

/-- Shape of `x.transpose(-1, -2)` on a rank-4 tensor. -/
def transposeLast2Shape : Shape → Option Shape
  | [a, b, c, d] => some [a, b, d, c]
  | _ => none

/-- Shape of `x.flatten(2)` on a rank-4 tensor. -/
def flatten2Shape : Shape → Option Shape
  | [b, c, hh, ww] => some [b, c, hh * ww]
  | _ => none

/-- Shape of `torch.cat([x, y], dim=1)` on rank-4 tensors. -/
def catDim1Shape : Shape → Shape → Option Shape
  | [b, c, hh, ww], [b2, c2, h2, w2] =>
      if b = b2 ∧ hh = h2 ∧ ww = w2 then some [b, c + c2, hh, ww] else none
  | _, _ => none

/-- Shape of each half of `torch.chunk(x, 2, dim=1)` on a rank-4 tensor with
an even channel count. -/
def chunk2Dim1Shape : Shape → Option Shape
  | [b, c, hh, ww] => if c % 2 = 0 then some [b, c / 2, hh, ww] else none
  | _ => none

/-- Shape of a batched matrix product `q @ k` on rank-4 tensors. -/
def matmul4Shape : Shape → Shape → Option Shape
  | [b, g, n, m], [b2, g2, m2, p] =>
      if b = b2 ∧ g = g2 ∧ m = m2 then some [b, g, n, p] else none
  | _, _ => none

/-- Shape of `torch.softmax(x, dim=-1)`. -/
def softmaxShape (s : Shape) : Option Shape := some s

/-- Shape of `torch.fft.rfft2(x, dim=(1, 2))` on a rank-4 tensor: the second
transformed axis is halved by real-FFT symmetry. -/
def rfft2Shape : Shape → Option Shape
  | [b, a, w, c] => some [b, a, w / 2 + 1, c]
  | _ => none

/-- Shape of `torch.fft.irfft2(x, s=(sa, sb), dim=(1, 2))`: the output
spatial size is the requested one. -/
def irfft2Shape (sa sb : Nat) : Shape → Option Shape
  | [b, _, _, c] => some [b, sa, sb, c]
  | _ => none

/-- Shape of `torch.mean(x, dim=1, keepdim=True)` (the rule is shared with
`torch.max(x, dim=1, keepdim=True)`). -/
def reduceDim1KeepShape : Shape → Option Shape
  | [b, _, hh, ww] => some [b, 1, hh, ww]
  | _ => none

/-! Shape semantics of the bryoFormer.py modules, composed exactly as in the
source forward methods. -/

namespace SpectralGatingNetwork

/-- Shape semantics of `SpectralGatingNetwork.forward` (bryoFormer.py lines
38-51, `spatial_size=None` path): reshape to the square grid, real FFT,
broadcast-multiply by the `[h, w, dim]` weight, inverse FFT, reshape back. -/
def forwardShape (dim h w : Nat) (s : Shape) : Option Shape :=
  match s with
  | [b, n, c] => do
      let a := Nat.sqrt n
      let x1 ← viewShape [b, n, c] [b, a, a, c]
      let x2 ← rfft2Shape x1
      let x3 ← broadcastShapes x2 [h, w, dim]
      let x4 ← irfft2Shape a a x3
      viewShape x4 [b, n, c]
  | _ => none

end SpectralGatingNetwork

namespace ChannelAttention

/-- Shape semantics of `ChannelAttention.forward` (lines 65-70): global
average pool, squeeze conv, ReLU, expand conv, sigmoid gate on the input. -/
def forwardShape (inC reduction : Nat) (s : Shape) : Option Shape := do
  let y1 ← adaptiveAvgPool1Shape s
  let y2 ← conv2dShape inC (inC / reduction) 1 1 0 y1
  let y3 ← conv2dShape (inC / reduction) inC 1 1 0 y2
  broadcastShapes s y3

end ChannelAttention

namespace SpatialAttention

/-- Shape semantics of `SpatialAttention.forward` (lines 84-89): depthwise
conv, batch norm, per-pixel attention from channel mean and max, sigmoid
gate on the normalized features. -/
def forwardShape (inC ksize : Nat) (s : Shape) : Option Shape := do
  let x1 ← conv2dShape inC inC ksize 1 (ksize / 2) s
  let x2 ← batchNorm2dShape inC x1
  let avg ← reduceDim1KeepShape x2
  let mx ← reduceDim1KeepShape x2
  let catm ← catDim1Shape avg mx
  let att ← conv2dShape 2 1 3 1 1 catm
  broadcastShapes x2 att

end SpatialAttention

namespace FeatureFusion

/-- Shape semantics of `FeatureFusion.forward` (lines 102-104): concatenate
the two gated maps and reduce back with a pointwise conv + batch norm. -/
def forwardShape (inC : Nat) (cf sf : Shape) : Option Shape := do
  let fused ← catDim1Shape cf sf
  let y ← conv2dShape (2 * inC) inC 1 1 0 fused
  batchNorm2dShape inC y

end FeatureFusion

namespace AttentionModule

/-- Shape semantics of `AttentionModule.forward` (lines 114-117). -/
def forwardShape (inC : Nat) (s : Shape) : Option Shape := do
  let co ← ChannelAttention.forwardShape inC 4 s
  let so ← SpatialAttention.forwardShape inC 3 s
  FeatureFusion.forwardShape inC co so

end AttentionModule

namespace FreqTimeBridge

/-- Shape semantics of `FreqTimeBridge.forward` (lines 132-143): layer norm,
spectral filter, sequence-to-grid reshape, attention module, grid-to-sequence
reshape, linear projection, sigmoid-scaled residual with the input. -/
def forwardShape (dim h w : Nat) (s : Shape) : Option Shape :=
  match s with
  | [b, n, c] => do
      let hs := Nat.sqrt n
      let xn ← layerNormShape dim [b, n, c]
      let xf ← SpectralGatingNetwork.forwardShape dim h w xn
      let xt ← transpose12Shape xf
      let x2d ← viewShape xt [b, c, hs, hs]
      let xa ← AttentionModule.forwardShape dim x2d
      let xfl ← flatten2Shape xa
      let xs ← transpose12Shape xfl
      let xp ← linearShape dim dim xs
      broadcastShapes [b, n, c] xp
  | _ => none

end FreqTimeBridge

namespace OSRAttention

/-- Shape semantics of the `self.sr` submodule built in
`OSRAttention.__init__` (lines 195-205): for `sr_ratio > 1` an average pool
followed by depthwise conv, batch norm, ReLU, pointwise conv, batch norm;
otherwise the identity. -/
def srShape (dim srRatio : Nat) (s : Shape) : Option Shape :=
  if 1 < srRatio then do
    let p1 ← avgPool2dShape srRatio srRatio s
    let p2 ← conv2dShape dim dim 3 1 1 p1
    let p3 ← batchNorm2dShape dim p2
    let p4 ← conv2dShape dim dim 1 1 0 p3
    batchNorm2dShape dim p4
  else some s

/-- Shape semantics of `OSRAttention.forward` (lines 209-226) with
`relative_pos_enc=None`: pointwise query projection, spatially reduced
key/value path (`self.sr`, then local-conv residual), key/value split,
scaled dot-product attention, reshape back to NCHW. -/
def forwardShape (dim numHeads srRatio : Nat) (s : Shape) : Option Shape :=
  match s with
  | [b, c, hh, ww] => do
      let q1 ← conv2dShape dim dim 1 1 0 [b, c, hh, ww]
      let q2 ← reshapeTail q1 [b, numHeads, c / numHeads]
      let q3 ← transposeLast2Shape q2
      let kv0 ← srShape dim srRatio [b, c, hh, ww]
      let lc ← conv2dShape dim dim 3 1 1 kv0
      let kvsum ← broadcastShapes lc kv0
      let kv ← conv2dShape dim (2 * dim) 1 1 0 kvsum
      let kc ← chunk2Dim1Shape kv
      let k2 ← reshapeTail kc [b, numHeads, c / numHeads]
      let v2 ← reshapeTail kc [b, numHeads, c / numHeads]
      let v3 ← transposeLast2Shape v2
      let attn ← matmul4Shape q3 k2
      let attn2 ← softmaxShape attn
      let out ← matmul4Shape attn2 v3
      let out2 ← transposeLast2Shape out
      viewShape out2 [b, c, hh, ww]
  | _ => none

end OSRAttention

namespace Block_attention

/-- Shape semantics of `Block_attention.forward` (lines 171-178): grid
reshape, `OSRAttention` (6 heads, `sr_ratio=2`), residual add, layer norm,
`Mlp` (linear to `hidden`, GELU, linear back), residual add. The `norm1`
member is constructed but never applied in the source forward. -/
def forwardShape (dim hidden : Nat) (s : Shape) : Option Shape :=
  match s with
  | [b, n, c] => do
      let hs := Nat.sqrt n
      let xt ← transpose12Shape [b, n, c]
      let x2d ← viewShape xt [b, c, hs, hs]
      let ao ← OSRAttention.forwardShape dim 6 2 x2d
      let av ← viewShape ao [b, c, n]
      let aseq ← transpose12Shape av
      let x1 ← broadcastShapes [b, n, c] aseq
      let xn ← layerNormShape dim x1
      let m1 ← linearShape dim hidden xn
      let m2 ← linearShape hidden dim m1
      broadcastShapes x1 m2
  | _ => none

end Block_attention

namespace PatchEmbed

/-- Shape semantics of `PatchEmbed.forward` (bryoFormer.py lines 268-275):
the assert rejects inputs whose spatial size differs from the configured
`img_size`; then stage 1 (conv 3x3, stride 2, pad 1), stage 2 (grouped conv
8x8, stride 8, then pointwise conv to `embed_dim`), flatten and transpose. -/
def forwardShape (imgSize inChans embedDim : Nat) (s : Shape) : Option Shape :=
  match s with
  | [b, c, hh, ww] =>
      if hh = imgSize ∧ ww = imgSize then do
        let s1 ← conv2dShape inChans (embedDim / 8) 3 2 1 [b, c, hh, ww]
        let s2 ← conv2dShape (embedDim / 8) (embedDim / 8) 8 8 0 s1
        let s3 ← conv2dShape (embedDim / 8) embedDim 1 1 0 s2
        let f ← flatten2Shape s3
        transpose12Shape f
      else none
  | _ => none

/-- The `num_patches` attribute computed in `PatchEmbed.__init__` (line 253):
`(img_size // patch_size) ** 2` for square inputs. -/
def numPatches (imgSize patchSize : Nat) : Nat :=
  (imgSize / patchSize) * (imgSize / patchSize)

end PatchEmbed

/-! Post-softmax result construction of `PlantRecognitionModel.predict`
(plant_model.py lines 122-160): top-k selection over the probability
vector, then the taxonomy lookup loop that builds the prediction list. -/

/-- Taxonomy entry of the class-names table (plant_model.py lines 103-109). -/
structure PlantInfo where
  name : Str
  sciName : Str
  family : Str
deriving DecidableEq, Repr

/-- One labeled prediction as assembled in the loop at lines 137-146; the
score type is a parameter so that the same construction serves the exact
rational embedding and the real-valued pipeline. -/
structure PredictionRecord (α : Type) where
  classId : Nat
  confidence : α
  info : PlantInfo
deriving DecidableEq

/-- The dictionary returned by `predict`: lines 148-152 on success, lines
156-160 on a caught exception (the failure dict carries no top prediction). -/
structure PredictResult (α : Type) where
  success : Bool
  predictions : List (PredictionRecord α)
  topPrediction : Option (PredictionRecord α)
deriving DecidableEq

/-- One selection step of `torch.topk`: the first maximal element of the
indexed probability list and the remaining elements in their original
order (ties keep the earlier class index). -/
def selectTop {α : Type} [LT α] [DecidableRel ((· < ·) : α → α → Prop)] :
    List (Nat × α) → Option ((Nat × α) × List (Nat × α))
  | [] => none
  | p :: rest =>
      match selectTop rest with
      | none => some (p, [])
      | some (q, rem) => if q.2 > p.2 then some (q, p :: rem) else some (p, rest)

/-- Repeated maximum selection: the `k` largest indexed probabilities in
descending order. -/
def topkAux {α : Type} [LT α] [DecidableRel ((· < ·) : α → α → Prop)] :
    Nat → List (Nat × α) → List (Nat × α)
  | 0, _ => []
  | k + 1, l =>
      match selectTop l with
      | none => []
      | some (p, rem) => p :: topkAux k rem

/-- Model of `torch.topk(probabilities, top_k)` (plant_model.py line 133):
raises (`none`) when `top_k` exceeds the number of classes, else returns
the `top_k` largest (class index, probability) pairs, sorted descending
with the stable tie-break. -/
def topk {α : Type} [LT α] [DecidableRel ((· < ·) : α → α → Prop)]
    (probs : List α) (k : Nat) : Option (List (Nat × α)) :=
  if k ≤ probs.length then some (topkAux k probs.enum) else none

/-- Model of Python `str(class_idx)` for the non-negative class indices. -/
def natToStr (n : Nat) : Str := Nat.toDigits 10 n

/-- The `predict` result construction (plant_model.py lines 130-160): top-k
over the softmax probabilities; each selected index is kept only when its
stringified id is a key of the class-names table; any exception — in
particular the `torch.topk` failure when `top_k` exceeds the class count —
is caught and turned into a failure dict with an empty prediction list. -/
def predict {α : Type} [LT α] [DecidableRel ((· < ·) : α → α → Prop)]
    (probs : List α) (classNames : List (Str × PlantInfo)) (topK : Nat) :
    PredictResult α :=
  match topk probs topK with
  | none => { success := false, predictions := [], topPrediction := none }
  | some sel =>
      let results := sel.filterMap fun p =>
        (List.lookup (natToStr p.1) classNames).map fun info =>
          { classId := p.1, confidence := p.2, info := info }
      { success := true, predictions := results, topPrediction := results.head? }

/-- The built-in fallback class-names table
(`PlantRecognitionModel.load_class_names`, plant_model.py lines 103-109). -/
def defaultClassNames : List (Str × PlantInfo) :=
  [(['0'], { name := ['龟', '背', '竹'],
             sciName := ['M', 'o', 'n', 's', 't', 'e', 'r', 'a', ' ',
                         'd', 'e', 'l', 'i', 'c', 'i', 'o', 's', 'a'],
             family := ['天', '南', '星', '科'] }),
   (['1'], { name := ['栀', '子', '花'],
             sciName := ['G', 'a', 'r', 'd', 'e', 'n', 'i', 'a', ' ',
                         'j', 'a', 's', 'm', 'i', 'n', 'o', 'i', 'd', 'e', 's'],
             family := ['茜', '草', '科'] }),
   (['2'], { name := ['多', '肉', '植', '物'],
             sciName := ['S', 'u', 'c', 'c', 'u', 'l', 'e', 'n', 't', ' ',
                         'p', 'l', 'a', 'n', 't', 's'],
             family := ['多', '个', '科', '属'] }),
   (['3'], { name := ['玫', '瑰'],
             sciName := ['R', 'o', 's', 'a', ' ', 'r', 'u', 'g', 'o', 's', 'a'],
             family := ['蔷', '薇', '科'] }),
   (['4'], { name := ['向', '日', '葵'],
             sciName := ['H', 'e', 'l', 'i', 'a', 'n', 't', 'h', 'u', 's', ' ',
                         'a', 'n', 'n', 'u', 'u', 's'],
             family := ['菊', '科'] })]

/-! Model of the weight-loading control flow of
`PlantRecognitionModel.load_model` (plant_model.py lines 21-87): a
checkpoint value loaded by `torch.load`, the wrapper-key unwrapping, the
key-normalization loop, and the nested try/except structure. -/

/-- A Python value as far as the checkpoint handling inspects it: a
dictionary with string keys, or something without `.keys()`/`.items()`
(a tensor, a list, ...). -/
inductive PyVal where
  | dict : List (Str × PyVal) → PyVal
  | tensor : PyVal

/-- A raised Python exception, as far as the handler distinguishes it. -/
inductive PyErr where
  | attributeError : PyErr
  | nameError : PyErr
  | runtimeError : PyErr
  | other : PyErr
deriving DecidableEq, Repr

/-- Key of the first wrapper probe `'model_state_dict' in checkpoint`. -/
def modelStateDictKey : Str :=
  ['m', 'o', 'd', 'e', 'l', '_', 's', 't', 'a', 't', 'e', '_', 'd', 'i', 'c', 't']

/-- Key of the second wrapper probe `'state_dict' in checkpoint`. -/
def stateDictKey : Str := ['s', 't', 'a', 't', 'e', '_', 'd', 'i', 'c', 't']

/-- Key of the third wrapper probe `'model' in checkpoint`. -/
def modelKey : Str := ['m', 'o', 'd', 'e', 'l']

/-- The wrapper unwrapping at plant_model.py lines 44-51: take the value
under `model_state_dict`, else `state_dict`, else `model`, else the
checkpoint dictionary itself. -/
def pickStateDict (entries : List (Str × PyVal)) : PyVal :=
  match List.lookup modelStateDictKey entries with
  | some v => v
  | none =>
      match List.lookup stateDictKey entries with
      | some v => v
      | none =>
          match List.lookup modelKey entries with
          | some v => v
          | none => .dict entries

/-- Python `state_dict.items()`: raises `AttributeError` on a non-dict. -/
def itemsOf : PyVal → Except PyErr (List (Str × PyVal))
  | .dict entries => .ok entries
  | .tensor => .error .attributeError

/-- The key-normalization loop at lines 54-63 (a later duplicate key would
overwrite an earlier one in the Python dict; the pair list keeps both,
which is irrelevant for the control-flow property). -/
def normalizeStateDict (items : List (Str × PyVal)) : List (Str × PyVal) :=
  items.map fun kv => (normalizeKey kv.1, kv.2)

/-- How far a load attempt got. -/
inductive WeightsTag where
  | loadedNonStrict : WeightsTag
  | randomInit : WeightsTag
deriving DecidableEq, Repr

/-- The body of the outer `try` (lines 36-67). On failure the error carries
the value of `new_state_dict` visible to the `except` handler: `none` when
the failure happened before line 54 bound it (so the handler's reference
raises `NameError`), otherwise the bound (possibly empty) normalized dict.
`torchLoad` stands for the result of `torch.load` on the checkpoint file and
`applySD` for `model.load_state_dict(..., strict=False)`, which can still
raise (e.g. on a size mismatch of a matching key). -/
def loadAttempt (torchLoad : Except PyErr PyVal)
    (applySD : List (Str × PyVal) → Except PyErr Unit) :
    Except (PyErr × Option (List (Str × PyVal))) WeightsTag :=
  match torchLoad with
  | .error e => .error (e, none)
  | .ok checkpoint =>
      match checkpoint with
      | .tensor => .error (.attributeError, none)
      | .dict entries =>
          match itemsOf (pickStateDict entries) with
          | .error e => .error (e, some [])
          | .ok items =>
              let nsd := normalizeStateDict items
              match applySD nsd with
              | .error e => .error (e, some nsd)
              | .ok _ => .ok .loadedNonStrict

/-- Model of `PlantRecognitionModel.load_model` (lines 21-87): construct the model;
if a checkpoint path exists, run the outer try; on its failure the except
branch retries `load_state_dict` with `new_state_dict` — raising `NameError`
into the inner try when the outer try failed before binding it — and the
inner except falls back to randomly initialized weights. The function value
is `Except` so that a propagating exception would be visible as `.error`. -/
def load_model (pathExists : Bool) (torchLoad : Except PyErr PyVal)
    (applySD : List (Str × PyVal) → Except PyErr Unit) :
    Except PyErr WeightsTag :=
  if pathExists then
    match loadAttempt torchLoad applySD with
    | .ok t => .ok t
    | .error (_, none) => .ok .randomInit
    | .error (_, some nsd) =>
        match applySD nsd with
        | .ok _ => .ok .loadedNonStrict
        | .error _ => .ok .randomInit
  else .ok .randomInit

/-! Value-level model of `FreqTimeBridge.forward` (bryoFormer.py lines
132-143) over real-valued token tensors. The sub-modules (layer norm,
spectral filter, the channel/spatial attention module, the linear
projection) are deterministic functions taken as parameters; the reshapes
between sequence and grid layout and the sigmoid-gated residual are modeled
concretely. -/

/-- A `[B, N, C]` token tensor of real values. -/
def Seq (B N C : Nat) : Type := Fin B → Fin N → Fin C → ℝ

/-- A `[B, C, H, W]` grid tensor of real values. -/
def Grid (B C H W : Nat) : Type := Fin B → Fin C → Fin H → Fin W → ℝ

/-- The reshape `x.transpose(1, 2).view(B, C, H, W)` at line 139: token
`i*W + j` of the sequence becomes grid cell `(i, j)`. -/
def gridOfSeq {B C H W : Nat} (x : Seq B (H * W) C) : Grid B C H W :=
  fun b c i j =>
    x b ⟨i.val * W + j.val, by
      have hj := j.isLt
      have hi := i.isLt
      calc i.val * W + j.val < i.val * W + W := by omega
        _ = (i.val + 1) * W := by ring
        _ ≤ H * W := Nat.mul_le_mul_right W hi⟩ c

/-- The reshape `x_attn.flatten(2).transpose(1, 2)` at line 142, inverse of
`gridOfSeq`. -/
def seqOfGrid {B C H W : Nat} (g : Grid B C H W) : Seq B (H * W) C :=
  fun b n c =>
    have hW : 0 < W := by
      rcases Nat.eq_zero_or_pos W with h0 | h0
      · exact absurd n.isLt (by simp [h0])
      · exact h0
    g b c
      ⟨n.val / W, by
        have hn := n.isLt
        refine Nat.div_lt_of_lt_mul ?_
        rw [Nat.mul_comm W H]
        exact hn⟩
      ⟨n.val % W, Nat.mod_lt _ hW⟩

/-- Logistic sigmoid, the meaning of `self.alpha.sigmoid()` on the learned
scalar at line 143. -/
noncomputable def sigmoid (x : ℝ) : ℝ := 1 / (1 + Real.exp (-x))

namespace FreqTimeBridge

/-- Value-level `FreqTimeBridge.forward` (lines 132-143), transcribed
statement by statement: `x_norm = self.norm(x)`, `x_freq =
self.spectral(x_norm)`, `x_2d` the grid reshape, `x_attn =
self.attn_module(x_2d)`, `x_fused` the sequence reshape, and the return
value `x + self.proj(x_fused) * self.alpha.sigmoid()`. -/
noncomputable def forward {B C H : Nat}
    (norm spectral : Seq B (H * H) C → Seq B (H * H) C)
    (attnModule : Grid B C H H → Grid B C H H)
    (proj : Seq B (H * H) C → Seq B (H * H) C)
    (alpha : ℝ) (x : Seq B (H * H) C) : Seq B (H * H) C :=
  let xNorm := norm x
  let xFreq := spectral xNorm
  let x2d := gridOfSeq xFreq
  let xAttn := attnModule x2d
  let xFused := seqOfGrid xAttn
  fun b n c => x b n c + proj xFused b n c * sigmoid alpha

/-- Modelled from the spec (the section 4.4 wording, stated for comparison
against the source transcription `forward`): layer-normalize the input,
apply the spectral filter, reshape to the grid, apply the attention-fusion
module, reshape back to a sequence, apply the linear projection, and add
the result — scaled by the sigmoid of the learned scalar — to the original
pre-normalization input. -/
noncomputable def forwardSpec {B C H : Nat}
    (norm spectral : Seq B (H * H) C → Seq B (H * H) C)
    (attnModule : Grid B C H H → Grid B C H H)
    (proj : Seq B (H * H) C → Seq B (H * H) C)
    (alpha : ℝ) (x : Seq B (H * H) C) : Seq B (H * H) C :=
  fun b n c =>
    x b n c +
      sigmoid alpha *
        proj (seqOfGrid (attnModule (gridOfSeq (spectral (norm x))))) b n c

end FreqTimeBridge

/-! Evaluation-mode determinism model of the deployed inference pipeline
(`PlantRecognitionModel.predict`, plant_model.py lines 122-152, on the
depth-8 `BryoFormer` put into `eval()` mode at line 86). Tensors are
real-valued functions; every stochastic layer of the source (`nn.Dropout`
in `pos_drop`, the two `Mlp` dropouts, `attn_drop`, `final_dropout`, and
timm `DropPath`) is threaded with an explicit noise draw that the layer
consults only in training mode. The deterministic sub-computations (convs,
norms with stored running statistics, FFT, linear maps) are function
parameters, identical across calls for frozen weights. -/

/-- A `[B, *]` real tensor with explicit batch dimension and a flattened
index for the remaining dimensions. -/
def TensorB (B : Nat) (ι : Type) : Type := Fin B → ι → ℝ

/-- Semantics of `nn.Dropout`: evaluation mode is the identity; training mode
multiplies by a drawn mask (the `1/(1-p)` rescale is folded into the
draw). -/
def dropoutT {B : Nat} {ι : Type} (training : Bool) (mask : Fin B → ι → ℝ)
    (x : TensorB B ι) : TensorB B ι :=
  if training then fun b i => x b i * mask b i else x

/-- timm `DropPath` (stochastic depth) semantics: identity when the drop
probability is zero or in evaluation mode; otherwise a drawn per-sample
gate. -/
noncomputable def dropPathT {B : Nat} {ι : Type} (p : ℝ) (training : Bool)
    (gate : Fin B → ℝ) (x : TensorB B ι) : TensorB B ι :=
  if p = 0 ∨ training = false then x else fun b i => gate b * x b i

/-- Deterministic parameters of `Mlp` (bryoFormer.py lines 229-245). -/
structure MlpF (B : Nat) (ι κ : Type) where
  fc1 : TensorB B ι → TensorB B κ
  act : TensorB B κ → TensorB B κ
  fc2 : TensorB B κ → TensorB B ι

/-- Noise draws for the two `self.drop` applications of `Mlp.forward`. -/
structure MlpNoise (B : Nat) (ι κ : Type) where
  m1 : Fin B → κ → ℝ
  m2 : Fin B → ι → ℝ

/-- Model of `Mlp.forward` (lines 239-245): fc1, activation, dropout, fc2, dropout. -/
def Mlp.forward {B : Nat} {ι κ : Type} (f : MlpF B ι κ) (training : Bool)
    (ns : MlpNoise B ι κ) (x : TensorB B ι) : TensorB B ι :=
  dropoutT training ns.m2 (f.fc2 (dropoutT training ns.m1 (f.act (f.fc1 x))))

/-- Deterministic parameters of a spectral `Block` (lines 146-158). -/
structure BlockF (B : Nat) (ι κ : Type) where
  norm1 : TensorB B ι → TensorB B ι
  filterF : TensorB B ι → TensorB B ι
  norm2 : TensorB B ι → TensorB B ι
  mlp : MlpF B ι κ
  dropPathP : ℝ

/-- Noise draws of one spectral `Block`. -/
structure BlockNoise (B : Nat) (ι κ : Type) where
  gate : Fin B → ℝ
  mlp : MlpNoise B ι κ

/-- Model of `Block.forward` (line 157):
`x + drop_path(mlp(norm2(filter(norm1(x)))))`. -/
noncomputable def Block.forward {B : Nat} {ι κ : Type} (f : BlockF B ι κ)
    (training : Bool) (ns : BlockNoise B ι κ) (x : TensorB B ι) :
    TensorB B ι :=
  fun b i =>
    x b i +
      dropPathT f.dropPathP training ns.gate
        (Mlp.forward f.mlp training ns.mlp (f.norm2 (f.filterF (f.norm1 x)))) b i

/-- Deterministic parameters of `OSRAttention` split around its single
stochastic site: `pre` covers the query and reduced key path up to the
scaled attention logits, `softmaxW` the softmax over them, and `post` the
value application and reshape (the value path reads the block input
again). -/
structure AttnF (B : Nat) (ι ω : Type) where
  pre : TensorB B ι → TensorB B ω
  softmaxW : TensorB B ω → TensorB B ω
  post : TensorB B ω → TensorB B ι → TensorB B ι

/-- Model of `OSRAttention.forward` (lines 209-226): the attention weights are
softmaxed, passed through `self.attn_drop`, and applied to the values. -/
def OSRAttention.forward {B : Nat} {ι ω : Type} (f : AttnF B ι ω)
    (training : Bool) (attnMask : Fin B → ω → ℝ) (x : TensorB B ι) :
    TensorB B ι :=
  f.post (dropoutT training attnMask (f.softmaxW (f.pre x))) x

/-- Deterministic parameters of `Block_attention` (lines 161-178); the
`norm1` member is constructed in the source but never applied in its
forward. -/
structure BlockAttnF (B : Nat) (ι κ ω : Type) where
  attn : AttnF B ι ω
  norm2 : TensorB B ι → TensorB B ι
  mlp : MlpF B ι κ
  dropPathP : ℝ

/-- Noise draws of one `Block_attention`. -/
structure BlockAttnNoise (B : Nat) (ι κ ω : Type) where
  attnMask : Fin B → ω → ℝ
  gate1 : Fin B → ℝ
  gate2 : Fin B → ℝ
  mlp : MlpNoise B ι κ

/-- Model of `Block_attention.forward` (lines 171-178): attention with drop-path
residual, then MLP with drop-path residual. -/
noncomputable def Block_attention.forward {B : Nat} {ι κ ω : Type}
    (f : BlockAttnF B ι κ ω) (training : Bool) (ns : BlockAttnNoise B ι κ ω)
    (x : TensorB B ι) : TensorB B ι :=
  let att := OSRAttention.forward f.attn training ns.attnMask x
  let x1 : TensorB B ι := fun b i =>
    x b i + dropPathT f.dropPathP training ns.gate1 att b i
  fun b i =>
    x1 b i +
      dropPathT f.dropPathP training ns.gate2
        (Mlp.forward f.mlp training ns.mlp (f.norm2 x1)) b i

/-- Deterministic parameters of the deployed `BryoFormer` (depth 8, as
built by `PlantRecognitionModel.load_model`): patch embedding, positional
embedding, four spectral blocks, the bridge (stochasticity-free; its batch
norms use stored running statistics in evaluation mode), three attention
blocks, the fused `norm` + token mean-pool, and the classifier head (the
`pre_logits` member is never applied in the source forward). -/
structure BryoFormerF (B : Nat) (Img ι κ ω γ : Type) (K : Nat) where
  patchEmbed : Img → TensorB B ι
  posEmbed : ι → ℝ
  blocks : Fin 4 → BlockF B ι κ
  bridge : TensorB B ι → TensorB B ι
  attnBlocks : Fin 3 → BlockAttnF B ι κ ω
  normMean : TensorB B ι → TensorB B γ
  head : TensorB B γ → TensorB B (Fin K)

/-- All noise draws consumed by one forward call. -/
structure BryoFormerNoise (B : Nat) (ι κ ω γ : Type) where
  posMask : Fin B → ι → ℝ
  blocks : Fin 4 → BlockNoise B ι κ
  attnBlocks : Fin 3 → BlockAttnNoise B ι κ ω
  finalMask : Fin B → γ → ℝ

/-- Model of `BryoFormer.forward` = `forward_features` (lines 339-349: patch embed,
positional bias, `pos_drop`, the block stack, norm + mean-pool) followed by
`final_dropout` and `head` (lines 351-355). -/
noncomputable def BryoFormer.forward {B : Nat} {Img ι κ ω γ : Type} {K : Nat}
    (f : BryoFormerF B Img ι κ ω γ K) (training : Bool)
    (ns : BryoFormerNoise B ι κ ω γ) (img : Img) : TensorB B (Fin K) :=
  let x0 := f.patchEmbed img
  let x1 : TensorB B ι := fun b i => x0 b i + f.posEmbed i
  let x2 := dropoutT training ns.posMask x1
  let x3 := (List.finRange 4).foldl
    (fun acc i => Block.forward (f.blocks i) training (ns.blocks i) acc) x2
  let x4 := f.bridge x3
  let x5 := (List.finRange 3).foldl
    (fun acc i => Block_attention.forward (f.attnBlocks i) training (ns.attnBlocks i) acc) x4
  let x6 := f.normMean x5
  let x7 := dropoutT training ns.finalMask x6
  f.head x7

/-- Softmax over the class scores of the single image
(`torch.nn.functional.softmax(outputs[0], dim=0)`, line 132). -/
noncomputable def softmaxR {K : Nat} (z : Fin K → ℝ) : Fin K → ℝ :=
  fun k => Real.exp (z k) / ∑ j, Real.exp (z j)

/-- The `predict` pipeline (lines 122-152) over the model in a given mode:
forward pass on the single-image batch (`unsqueeze(0)`), softmax over the
class scores, top-k selection and taxonomy labeling. -/
noncomputable def predictPipeline {Img ι κ ω γ : Type} {K : Nat}
    (f : BryoFormerF 1 Img ι κ ω γ K) (training : Bool)
    (ns : BryoFormerNoise 1 ι κ ω γ) (img : Img)
    (classNames : List (Str × PlantInfo)) (topK : Nat) : PredictResult ℝ :=
  let logits := BryoFormer.forward f training ns img
  let probs := List.ofFn fun j : Fin K =>
    softmaxR (fun k2 => logits ⟨0, Nat.one_pos⟩ k2) j
  predict probs classNames topK

end PlantApp

namespace PlantApp

theorem threePhase_mem_bridge {l : List BlockKind} (h : ThreePhase l) :
    BlockKind.bridge ∈ l := by
  obtain ⟨a, b, c, hb, rfl⟩ := h
  refine List.mem_append.mpr (Or.inl (List.mem_append.mpr (Or.inr ?_)))
  exact List.mem_replicate.mpr ⟨by omega, rfl⟩

theorem v4_not_threePhase : ¬ ThreePhase BryoFormerV4.blockKinds := by
  intro h
  have hmem := threePhase_mem_bridge h
  revert hmem
  decide

/-- Claim C2 (counterexample): the `BryoFormerV4` variant's block stack does
not follow the three-phase ordering — it contains no `FreqTimeBridge` at
all, so the claim that every variant keeps all three phases is false. -/
theorem claim2_counterexample : ¬ ThreePhase BryoFormerV4.blockKinds :=
  v4_not_threePhase

/-- Claim C2 (amended): the base `BryoFormer` stack (for any constructible
depth) and the `BryoFormerV2` and `BryoFormerV3` stacks follow the
three-phase ordering — a run of spectral-gating blocks, then at least one
`FreqTimeBridge`, then a run of reduced-attention blocks — and these
variants differ only in the per-phase counts; `BryoFormerV4` however drops
the bridge phase entirely. -/
theorem claim2_three_phase (depth : Nat) (_h : 4 ≤ depth) :
    ThreePhase (BryoFormer.blockKinds depth) ∧
    ThreePhase BryoFormerV2.blockKinds ∧
    ThreePhase BryoFormerV3.blockKinds ∧
    ¬ ThreePhase BryoFormerV4.blockKinds := by
  refine ⟨⟨4, 1, depth - 5, Nat.le_refl 1, rfl⟩,
          ⟨3, 1, 4, Nat.le_refl 1, rfl⟩,
          ⟨2, 2, 8, by omega, rfl⟩,
          v4_not_threePhase⟩

/-- Witness for `claim2_three_phase` at the deployed depth 8. -/
theorem claim2_three_phase_witness :
    ThreePhase (BryoFormer.blockKinds 8) ∧
    ThreePhase BryoFormerV2.blockKinds ∧
    ThreePhase BryoFormerV3.blockKinds ∧
    ¬ ThreePhase BryoFormerV4.blockKinds :=
  claim2_three_phase 8 (by decide)

theorem normalizeKey_of_not_wrapped {k : Str} (h : wrapped k = false) :
    normalizeKey k = k := by
  simp only [wrapped, Bool.or_eq_false_iff] at h
  simp [normalizeKey, h.1, h.2]

/-- Claim C3 (counterexample): key normalization is not idempotent. The
singleton key set containing `module.module.x` normalizes to the set with
the single key `module.x`, and normalizing that already-normalized set
again strips the surviving wrapper, giving the different set with the
single key `x`. -/
theorem claim3_counterexample :
    Finset.image normalizeKey (Finset.image normalizeKey
        ({['m', 'o', 'd', 'u', 'l', 'e', '.', 'm', 'o', 'd', 'u', 'l', 'e', '.', 'x']} : Finset Str)) ≠
      Finset.image normalizeKey
        ({['m', 'o', 'd', 'u', 'l', 'e', '.', 'm', 'o', 'd', 'u', 'l', 'e', '.', 'x']} : Finset Str) := by
  decide

/-- Claim C3 (amended): key normalization is idempotent exactly on key sets
whose keys do not carry a doubled wrapper: whenever every key of the set,
once normalized, no longer begins with `module.` or `model.`, applying the
normalization a second time to the normalized set yields the same set.
A key such as `module.module.x` violates this and is stripped twice. -/
theorem claim3_normalize_idempotent (S : Finset Str)
    (h : ∀ k ∈ S, wrapped (normalizeKey k) = false) :
    Finset.image normalizeKey (Finset.image normalizeKey S) =
      Finset.image normalizeKey S := by
  rw [Finset.image_image]
  refine Finset.image_congr ?_
  intro k hk
  exact normalizeKey_of_not_wrapped (h k hk)

theorem conv2dShape_eq (inC outC k stride pad : Nat) {b c hh ww : Nat}
    (hc : c = inC) (h1 : k ≤ hh + 2 * pad) (h2 : k ≤ ww + 2 * pad)
    (hs : 0 < stride) :
    conv2dShape inC outC k stride pad [b, c, hh, ww] =
      some [b, outC, (hh + 2 * pad - k) / stride + 1, (ww + 2 * pad - k) / stride + 1] := by
  simp [conv2dShape, hc, h1, h2, hs]

/-- Claim C4 (counterexample): with image size 224 and patch size 14 (and
224 divisible by 14), `PatchEmbed.forward` produces 196 = 14·14 tokens —
the two convolution strides are hard-coded to 2·8 = 16 — while
`num_patches = (224/14)² = 256`; the token count does not equal
`(H/p)·(H/p)` for this configuration. -/
theorem claim4_counterexample :
    (14 ∣ 224) ∧
    PatchEmbed.forwardShape 224 3 384 [1, 3, 224, 224] = some [1, 196, 384] ∧
    PatchEmbed.numPatches 224 14 = 256 ∧
    PatchEmbed.forwardShape 224 3 384 [1, 3, 224, 224] ≠
      some [1, PatchEmbed.numPatches 224 14, 384] := by
  refine ⟨by decide, by decide, by decide, by decide⟩

/-- Claim C4 (amended): `PatchEmbed` maps a `[B, 3, H, H]` image to exactly
`(H/16)·(H/16)` tokens whenever `H` is a multiple of 16 — the downsampling
strides are hard-coded to a total of 16, so the identity
`N = (H/p)·(H/p)` holds only for patch size 16, not for every divisor `p`
of `H`; the run-time assert verifies that the input spatial size equals the
configured image size (rejecting every other input), not the token-count
identity itself. -/
theorem claim4_patch_tokens (b ed m : Nat) (hm : 1 ≤ m) :
    PatchEmbed.forwardShape (16 * m) 3 ed [b, 3, 16 * m, 16 * m] =
      some [b, PatchEmbed.numPatches (16 * m) 16, ed] ∧
    (∀ hh ww, (hh ≠ 16 * m ∨ ww ≠ 16 * m) →
      PatchEmbed.forwardShape (16 * m) 3 ed [b, 3, hh, ww] = none) := by
  constructor
  · have h1 : conv2dShape 3 (ed / 8) 3 2 1 [b, 3, 16 * m, 16 * m] =
        some [b, ed / 8, 8 * m, 8 * m] := by
      rw [conv2dShape_eq 3 (ed / 8) 3 2 1 rfl (by omega) (by omega) (by omega)]
      have he : (16 * m + 2 * 1 - 3) / 2 + 1 = 8 * m := by omega
      rw [he]
    have h2 : conv2dShape (ed / 8) (ed / 8) 8 8 0 [b, ed / 8, 8 * m, 8 * m] =
        some [b, ed / 8, m, m] := by
      rw [conv2dShape_eq (ed / 8) (ed / 8) 8 8 0 rfl (by omega) (by omega) (by omega)]
      have he : (8 * m + 2 * 0 - 8) / 8 + 1 = m := by omega
      rw [he]
    have h3 : conv2dShape (ed / 8) ed 1 1 0 [b, ed / 8, m, m] =
        some [b, ed, m, m] := by
      rw [conv2dShape_eq (ed / 8) ed 1 1 0 rfl (by omega) (by omega) (by omega)]
      have he : (m + 2 * 0 - 1) / 1 + 1 = m := by omega
      rw [he]
    have hnp : PatchEmbed.numPatches (16 * m) 16 = m * m := by
      unfold PatchEmbed.numPatches
      rw [Nat.mul_div_cancel_left m (by norm_num)]
    simp [PatchEmbed.forwardShape, h1, h2, h3, flatten2Shape, transpose12Shape, hnp]
  · intro hh ww hne
    simp only [PatchEmbed.forwardShape]
    rw [if_neg]
    tauto

/-- Witness for `claim4_patch_tokens` at the deployed configuration
`H = 224 = 16·14`, `embed_dim = 384`, batch 1. -/
theorem claim4_patch_tokens_witness :
    PatchEmbed.forwardShape (16 * 14) 3 384 [1, 3, 16 * 14, 16 * 14] =
      some [1, PatchEmbed.numPatches (16 * 14) 16, 384] :=
  (claim4_patch_tokens 1 384 14 (by decide)).1

theorem broadcastDim_self (a : Nat) : broadcastDim a a = some a := by
  simp [broadcastDim]

theorem broadcastDim_one_right (a : Nat) : broadcastDim a 1 = some a := by
  by_cases h : a = 1 <;> simp [broadcastDim, h]

theorem broadcastRev_append (l e : List Nat) :
    broadcastRev (l ++ e) l = some (l ++ e) := by
  induction l with
  | nil => cases e <;> rfl
  | cons a l ih => simp [broadcastRev, broadcastDim_self, ih]

theorem broadcastShapes_self (s : Shape) : broadcastShapes s s = some s := by
  have h := broadcastRev_append s.reverse []
  simp only [List.append_nil] at h
  simp [broadcastShapes, h]

theorem broadcastShapes_cons (b : Nat) (t : Shape) :
    broadcastShapes (b :: t) t = some (b :: t) := by
  have h := broadcastRev_append t.reverse [b]
  simp [broadcastShapes, h]

theorem broadcastShapes_ones_tail (b c hh ww : Nat) :
    broadcastShapes [b, c, hh, ww] [b, c, 1, 1] = some [b, c, hh, ww] := by
  simp [broadcastShapes, broadcastRev, broadcastDim_self, broadcastDim_one_right]

theorem broadcastShapes_one_chan (b c hh ww : Nat) :
    broadcastShapes [b, c, hh, ww] [b, 1, hh, ww] = some [b, c, hh, ww] := by
  simp [broadcastShapes, broadcastRev, broadcastDim_self, broadcastDim_one_right]

theorem viewShape_eq {s target : Shape} (h : s.prod = target.prod) :
    viewShape s target = some target := by
  simp [viewShape, h]

theorem spectral_shape (bsz dim h : Nat) :
    SpectralGatingNetwork.forwardShape dim h (h / 2 + 1) [bsz, h * h, dim] =
      some [bsz, h * h, dim] := by
  have hsq : Nat.sqrt (h * h) = h := Nat.sqrt_eq h
  have hv1 : viewShape [bsz, h * h, dim] [bsz, h, h, dim] = some [bsz, h, h, dim] :=
    viewShape_eq (by simp only [List.prod_cons, List.prod_nil]; ring)
  have hv2 : viewShape [bsz, h, h, dim] [bsz, h * h, dim] = some [bsz, h * h, dim] :=
    viewShape_eq (by simp only [List.prod_cons, List.prod_nil]; ring)
  simp [SpectralGatingNetwork.forwardShape, hsq, hv1, hv2, rfft2Shape, irfft2Shape,
        broadcastShapes_cons]

theorem channelAttention_shape (bsz dim h : Nat) :
    ChannelAttention.forwardShape dim 4 [bsz, dim, h, h] = some [bsz, dim, h, h] := by
  have hc1 : conv2dShape dim (dim / 4) 1 1 0 [bsz, dim, 1, 1] = some [bsz, dim / 4, 1, 1] := by
    rw [conv2dShape_eq dim (dim / 4) 1 1 0 rfl (by omega) (by omega) (by omega)]
  have hc2 : conv2dShape (dim / 4) dim 1 1 0 [bsz, dim / 4, 1, 1] = some [bsz, dim, 1, 1] := by
    rw [conv2dShape_eq (dim / 4) dim 1 1 0 rfl (by omega) (by omega) (by omega)]
  simp [ChannelAttention.forwardShape, adaptiveAvgPool1Shape, hc1, hc2,
        broadcastShapes_ones_tail]

theorem spatialAttention_shape (bsz dim h : Nat) (hh1 : 1 ≤ h) :
    SpatialAttention.forwardShape dim 3 [bsz, dim, h, h] = some [bsz, dim, h, h] := by
  have hdw : conv2dShape dim dim 3 1 1 [bsz, dim, h, h] = some [bsz, dim, h, h] := by
    rw [conv2dShape_eq dim dim 3 1 1 rfl (by omega) (by omega) (by omega)]
    have he : (h + 2 * 1 - 3) / 1 + 1 = h := by omega
    rw [he]
  have hatt : conv2dShape 2 1 3 1 1 [bsz, 2, h, h] = some [bsz, 1, h, h] := by
    rw [conv2dShape_eq 2 1 3 1 1 rfl (by omega) (by omega) (by omega)]
    have he : (h + 2 * 1 - 3) / 1 + 1 = h := by omega
    rw [he]
  simp [SpatialAttention.forwardShape, hdw, batchNorm2dShape, reduceDim1KeepShape,
        catDim1Shape, hatt, broadcastShapes_one_chan]

theorem featureFusion_shape (bsz dim h : Nat) (hh1 : 1 ≤ h) :
    FeatureFusion.forwardShape dim [bsz, dim, h, h] [bsz, dim, h, h] =
      some [bsz, dim, h, h] := by
  have hcv : conv2dShape (2 * dim) dim 1 1 0 [bsz, dim + dim, h, h] =
      some [bsz, dim, h, h] := by
    rw [conv2dShape_eq (2 * dim) dim 1 1 0 (by ring) (by omega) (by omega) (by omega)]
    have he : (h + 2 * 0 - 1) / 1 + 1 = h := by omega
    rw [he]
  simp [FeatureFusion.forwardShape, catDim1Shape, hcv, batchNorm2dShape]

theorem attentionModule_shape (bsz dim h : Nat) (hh1 : 1 ≤ h) :
    AttentionModule.forwardShape dim [bsz, dim, h, h] = some [bsz, dim, h, h] := by
  simp [AttentionModule.forwardShape, channelAttention_shape,
        spatialAttention_shape bsz dim h hh1, featureFusion_shape bsz dim h hh1]

theorem freqTimeBridge_shape (bsz dim h : Nat) (hh1 : 1 ≤ h) :
    FreqTimeBridge.forwardShape dim h (h / 2 + 1) [bsz, h * h, dim] =
      some [bsz, h * h, dim] := by
  have hsq : Nat.sqrt (h * h) = h := Nat.sqrt_eq h
  have hv1 : viewShape [bsz, dim, h * h] [bsz, dim, h, h] = some [bsz, dim, h, h] :=
    viewShape_eq (by simp only [List.prod_cons, List.prod_nil]; ring)
  simp [FreqTimeBridge.forwardShape, hsq, layerNormShape, lastDim, spectral_shape,
        transpose12Shape, hv1, attentionModule_shape bsz dim h hh1, flatten2Shape,
        linearShape, broadcastShapes_self]

theorem reshapeTail_heads (bsz e x y : Nat) (hb : 0 < bsz) (he : 0 < e) :
    reshapeTail [bsz, 6 * e, x, y] [bsz, 6, e] = some [bsz, 6, e, x * y] := by
  have hpos : 0 < bsz * (6 * (e * 1)) := by positivity
  have hq : bsz * (6 * e * (x * (y * 1))) = bsz * (6 * (e * 1)) * (x * y) := by ring
  unfold reshapeTail
  simp only [List.prod_cons, List.prod_nil]
  rw [if_pos ⟨hpos, ⟨x * y, hq⟩⟩, hq, Nat.mul_div_cancel_left _ hpos]
  rfl

theorem transpose12Shape_eq (a b c : Nat) :
    transpose12Shape [a, b, c] = some [a, c, b] := rfl

theorem transposeLast2Shape_eq (a b c d : Nat) :
    transposeLast2Shape [a, b, c, d] = some [a, b, d, c] := rfl

theorem matmul4Shape_eq (b g n m p : Nat) :
    matmul4Shape [b, g, n, m] [b, g, m, p] = some [b, g, n, p] := by
  simp [matmul4Shape]

theorem batchNorm2dShape_eq (c b hh ww : Nat) :
    batchNorm2dShape c [b, c, hh, ww] = some [b, c, hh, ww] := by
  simp [batchNorm2dShape]

theorem layerNormShape3_eq (d a b : Nat) :
    layerNormShape d [a, b, d] = some [a, b, d] := by
  simp [layerNormShape, lastDim]

theorem linearShape3_eq (inF outF a b : Nat) :
    linearShape inF outF [a, b, inF] = some [a, b, outF] := by
  simp [linearShape]

theorem softmaxShape_eq (s : Shape) : softmaxShape s = some s := rfl

set_option maxHeartbeats 1600000 in
set_option maxRecDepth 4000 in
theorem osrAttention_shape (bsz e h : Nat) (hb : 0 < bsz) (he : 0 < e)
    (hh2 : 2 ≤ h) :
    OSRAttention.forwardShape (6 * e) 6 2 [bsz, 6 * e, h, h] =
      some [bsz, 6 * e, h, h] := by
  have hdiv : 6 * e / 6 = e := Nat.mul_div_cancel_left e (by norm_num)
  have hq1 : conv2dShape (6 * e) (6 * e) 1 1 0 [bsz, 6 * e, h, h] =
      some [bsz, 6 * e, h, h] := by
    rw [conv2dShape_eq (6 * e) (6 * e) 1 1 0 rfl (by omega) (by omega) (by omega)]
    have hee : (h + 2 * 0 - 1) / 1 + 1 = h := by omega
    rw [hee]
  have hpool : avgPool2dShape 2 2 [bsz, 6 * e, h, h] =
      some [bsz, 6 * e, (h - 2) / 2 + 1, (h - 2) / 2 + 1] := by
    simp [avgPool2dShape, hh2]
  have hconv3 : conv2dShape (6 * e) (6 * e) 3 1 1
      [bsz, 6 * e, (h - 2) / 2 + 1, (h - 2) / 2 + 1] =
      some [bsz, 6 * e, (h - 2) / 2 + 1, (h - 2) / 2 + 1] := by
    rw [conv2dShape_eq (6 * e) (6 * e) 3 1 1 rfl (by omega) (by omega) (by omega)]
    have hee : ((h - 2) / 2 + 1 + 2 * 1 - 3) / 1 + 1 = (h - 2) / 2 + 1 := by omega
    rw [hee]
  have hconv1 : conv2dShape (6 * e) (6 * e) 1 1 0
      [bsz, 6 * e, (h - 2) / 2 + 1, (h - 2) / 2 + 1] =
      some [bsz, 6 * e, (h - 2) / 2 + 1, (h - 2) / 2 + 1] := by
    rw [conv2dShape_eq (6 * e) (6 * e) 1 1 0 rfl (by omega) (by omega) (by omega)]
    have hee : ((h - 2) / 2 + 1 + 2 * 0 - 1) / 1 + 1 = (h - 2) / 2 + 1 := by omega
    rw [hee]
  have hkv : conv2dShape (6 * e) (2 * (6 * e)) 1 1 0
      [bsz, 6 * e, (h - 2) / 2 + 1, (h - 2) / 2 + 1] =
      some [bsz, 2 * (6 * e), (h - 2) / 2 + 1, (h - 2) / 2 + 1] := by
    rw [conv2dShape_eq (6 * e) (2 * (6 * e)) 1 1 0 rfl (by omega) (by omega) (by omega)]
    have hee : ((h - 2) / 2 + 1 + 2 * 0 - 1) / 1 + 1 = (h - 2) / 2 + 1 := by omega
    rw [hee]
  have hchunk : chunk2Dim1Shape
      [bsz, 2 * (6 * e), (h - 2) / 2 + 1, (h - 2) / 2 + 1] =
      some [bsz, 6 * e, (h - 2) / 2 + 1, (h - 2) / 2 + 1] := by
    have h2d : 2 * (6 * e) / 2 = 6 * e := Nat.mul_div_cancel_left (6 * e) (by norm_num)
    simp [chunk2Dim1Shape, Nat.mul_mod_right, h2d]
  have hrq : reshapeTail [bsz, 6 * e, h, h] [bsz, 6, e] = some [bsz, 6, e, h * h] :=
    reshapeTail_heads bsz e h h hb he
  have hrk : reshapeTail [bsz, 6 * e, (h - 2) / 2 + 1, (h - 2) / 2 + 1] [bsz, 6, e] =
      some [bsz, 6, e, ((h - 2) / 2 + 1) * ((h - 2) / 2 + 1)] :=
    reshapeTail_heads bsz e _ _ hb he
  have hview1 : viewShape [bsz, 6, e, h * h] [bsz, 6 * e, h, h] =
      some [bsz, 6 * e, h, h] :=
    viewShape_eq (by simp only [List.prod_cons, List.prod_nil]; ring)
  have hsr : OSRAttention.srShape (6 * e) 2 [bsz, 6 * e, h, h] =
      some [bsz, 6 * e, (h - 2) / 2 + 1, (h - 2) / 2 + 1] := by
    simp [OSRAttention.srShape, hpool, hconv3, batchNorm2dShape_eq, hconv1]
  simp only [OSRAttention.forwardShape, Option.bind_eq_bind', Option.some_bind,
             hdiv, hq1, hrq, transposeLast2Shape_eq, hsr, hconv3,
             batchNorm2dShape_eq, hconv1, broadcastShapes_self, hkv, hchunk, hrk,
             matmul4Shape_eq, softmaxShape_eq, hview1]

set_option maxHeartbeats 1600000 in
set_option maxRecDepth 16000 in
theorem blockAttention_shape (bsz dim h hid : Nat) (hb : 0 < bsz) (hdim : 0 < dim)
    (hdvd : 6 ∣ dim) (hh2 : 2 ≤ h) :
    Block_attention.forwardShape dim hid [bsz, h * h, dim] = some [bsz, h * h, dim] := by
  obtain ⟨e, rfl⟩ := hdvd
  have he : 0 < e := by omega
  have hsq : Nat.sqrt (h * h) = h := Nat.sqrt_eq h
  have hv0 : viewShape [bsz, 6 * e, h * h] [bsz, 6 * e, h, h] =
      some [bsz, 6 * e, h, h] :=
    viewShape_eq (by simp only [List.prod_cons, List.prod_nil]; ring)
  have hv2 : viewShape [bsz, 6 * e, h, h] [bsz, 6 * e, h * h] =
      some [bsz, 6 * e, h * h] :=
    viewShape_eq (by simp only [List.prod_cons, List.prod_nil]; ring)
  simp only [Block_attention.forwardShape]
  simp only [hsq]
  simp only [Option.bind_eq_bind', Option.some_bind, transpose12Shape_eq]
  simp only [hv0, Option.some_bind]
  simp only [osrAttention_shape bsz e h hb he hh2, Option.some_bind]
  simp only [hv2, Option.some_bind, transpose12Shape_eq]
  simp only [broadcastShapes_self, Option.some_bind]
  simp only [layerNormShape3_eq, Option.some_bind]
  simp only [linearShape3_eq, Option.some_bind]
  simp only [broadcastShapes_self]

/-- Claim C6 (counterexample): `SpectralGatingNetwork` (as configured in the
deployed model: `dim=384`, `h=14`, `w=8`) does not preserve the shape of
every `[B, N, C]` input with `N` a perfect square: on `[1, 25, 384]` the
broadcast of the `[14, 8, 384]` spectral weight against the `[1, 5, 3, 384]`
frequency grid fails, so the forward call raises instead of returning a
same-shape output. -/
theorem claim6_counterexample :
    SpectralGatingNetwork.forwardShape 384 14 8 [1, 25, 384] = none := by
  have hsq : Nat.sqrt 25 = 5 := by
    rw [show (25 : Nat) = 5 * 5 by norm_num]
    exact Nat.sqrt_eq 5
  simp only [SpectralGatingNetwork.forwardShape, hsq]
  decide

/-- Claim C6 (amended): shape preservation `[B, N, C] → [B, N, C]` holds for
`SpectralGatingNetwork`, `FreqTimeBridge` and `Block_attention` for inputs
that match the module configuration — `N = h²` with `h` the configured grid
side (at least 2, as required by the key/value pooling), spectral width
`w = h/2 + 1`, channel count equal to the configured embedding dim, and the
embedding dim divisible by the hard-coded 6 attention heads — not for every
perfect-square `N`. -/
theorem claim6_shape_preserved (bsz dim h hid : Nat) (hb : 0 < bsz)
    (hdim : 0 < dim) (hdvd : 6 ∣ dim) (hh2 : 2 ≤ h) :
    SpectralGatingNetwork.forwardShape dim h (h / 2 + 1) [bsz, h * h, dim] =
      some [bsz, h * h, dim] ∧
    FreqTimeBridge.forwardShape dim h (h / 2 + 1) [bsz, h * h, dim] =
      some [bsz, h * h, dim] ∧
    Block_attention.forwardShape dim hid [bsz, h * h, dim] =
      some [bsz, h * h, dim] :=
  ⟨spectral_shape bsz dim h, freqTimeBridge_shape bsz dim h (by omega),
   blockAttention_shape bsz dim h hid hb hdim hdvd hh2⟩

/-- Witness for `claim6_shape_preserved` at the deployed configuration:
batch 1, `dim = 384`, grid side `h = 14` (so `N = 196`, `w = 8`), MLP
hidden width 768. -/
theorem claim6_shape_preserved_witness :
    SpectralGatingNetwork.forwardShape 384 14 (14 / 2 + 1) [1, 14 * 14, 384] =
      some [1, 14 * 14, 384] ∧
    FreqTimeBridge.forwardShape 384 14 (14 / 2 + 1) [1, 14 * 14, 384] =
      some [1, 14 * 14, 384] ∧
    Block_attention.forwardShape 384 768 [1, 14 * 14, 384] =
      some [1, 14 * 14, 384] :=
  claim6_shape_preserved 1 384 14 768 (by decide) (by decide) (by decide) (by decide)

/-- Witness for `claim3_normalize_idempotent` on a set of three keys with
single wrappers. -/
theorem claim3_normalize_idempotent_witness :
    Finset.image normalizeKey (Finset.image normalizeKey
        ({['m', 'o', 'd', 'u', 'l', 'e', '.', 'w'], ['m', 'o', 'd', 'e', 'l', '.', 'b'],
          ['f', 'c']} : Finset Str)) =
      Finset.image normalizeKey
        ({['m', 'o', 'd', 'u', 'l', 'e', '.', 'w'], ['m', 'o', 'd', 'e', 'l', '.', 'b'],
          ['f', 'c']} : Finset Str) :=
  claim3_normalize_idempotent _ (by decide)

theorem selectTop_cons_isSome (p : Nat × ℚ) (rest : List (Nat × ℚ)) :
    (selectTop (p :: rest)).isSome := by
  cases h : selectTop rest with
  | none => simp [selectTop, h]
  | some pr => simp only [selectTop, h]; split <;> simp

theorem selectTop_length {l : List (Nat × ℚ)} {p : Nat × ℚ}
    {rem : List (Nat × ℚ)} (h : selectTop l = some (p, rem)) :
    rem.length + 1 = l.length := by
  induction l generalizing p rem with
  | nil => simp [selectTop] at h
  | cons a rest ih =>
    rw [selectTop] at h
    cases hr : selectTop rest with
    | none =>
      rw [hr] at h
      cases rest with
      | nil =>
        simp at h
        simp [h.2]
      | cons b t =>
        have hs := selectTop_cons_isSome b t
        rw [hr] at hs
        simp at hs
    | some qr =>
      obtain ⟨q, rem0⟩ := qr
      rw [hr] at h
      dsimp at h
      split at h
      · simp only [Option.some.injEq, Prod.mk.injEq] at h
        obtain ⟨rfl, rfl⟩ := h
        have hih := ih hr
        simp only [List.length_cons] at hih ⊢
        omega
      · simp only [Option.some.injEq, Prod.mk.injEq] at h
        obtain ⟨rfl, rfl⟩ := h
        simp

theorem topkAux_length {k : Nat} {l : List (Nat × ℚ)} (hk : k ≤ l.length) :
    (topkAux k l).length = k := by
  induction k generalizing l with
  | zero => simp [topkAux]
  | succ k ih =>
    cases l with
    | nil => simp at hk
    | cons a rest =>
      cases hs : selectTop (a :: rest) with
      | none =>
        have := selectTop_cons_isSome a rest
        rw [hs] at this
        simp at this
      | some pr =>
        obtain ⟨p, rem⟩ := pr
        have hlen := selectTop_length hs
        simp only [List.length_cons] at hlen hk
        simp only [topkAux, hs, List.length_cons]
        rw [ih (by omega)]

theorem length_filterMap_of_isSome {α β : Type} (f : α → Option β) (l : List α)
    (h : ∀ a ∈ l, (f a).isSome) : (l.filterMap f).length = l.length := by
  induction l with
  | nil => simp
  | cons a t ih =>
    have ha := h a (by simp)
    obtain ⟨b, hb⟩ := Option.isSome_iff_exists.mp ha
    simp [List.filterMap_cons, hb, ih (fun x hx => h x (by simp [hx]))]

/-- Claim C1 (counterexample): with 2 classes and `top_k = 3`, `predict`
does not return `min(3, 2) = 2` ranked predictions — `torch.topk` raises
because `k` exceeds the class count, the exception is caught, and the call
returns a failure result with an empty prediction list. -/
theorem claim1_counterexample :
    (predict [3, 1] defaultClassNames 3).success = false ∧
    (predict [3, 1] defaultClassNames 3).predictions = [] ∧
    (predict [3, 1] defaultClassNames 3).predictions.length ≠ min 3 2 := by
  refine ⟨by decide, by decide, by decide⟩

/-- Claim C1 (amended): the ranked list has length `min(k, num_classes)`
only when `1 ≤ k ≤ num_classes` and every selected class index is present
in the taxonomy table; when `k > num_classes` the call fails (success
`False`, empty list) because `torch.topk` raises, and selected indices
missing from the table shorten the list further. -/
theorem claim1_topk_length (probs : List ℚ) (classNames : List (Str × PlantInfo))
    (k : Nat) (_hk1 : 1 ≤ k) (hk : k ≤ probs.length)
    (hmem : ∀ p ∈ topkAux k probs.enum,
      (List.lookup (natToStr p.1) classNames).isSome) :
    (predict probs classNames k).success = true ∧
    (predict probs classNames k).predictions.length = min k probs.length := by
  have hsel : topk probs k = some (topkAux k probs.enum) := by simp [topk, hk]
  have hlen : (topkAux k probs.enum).length = k :=
    topkAux_length (by simpa [List.enum_length] using hk)
  refine ⟨by simp [predict, hsel], ?_⟩
  simp only [predict, hsel]
  rw [length_filterMap_of_isSome _ _ ?_]
  · rw [hlen]
    exact (Nat.min_eq_left hk).symm
  · intro p hp
    obtain ⟨b, hb⟩ := Option.isSome_iff_exists.mp (hmem p hp)
    simp [hb]

/-- Witness for `claim1_topk_length`: three classes, `k = 2`, all selected
ids in the default taxonomy table. -/
theorem claim1_topk_length_witness :
    (predict [3, 2, 1] defaultClassNames 2).success = true ∧
    (predict [3, 2, 1] defaultClassNames 2).predictions.length =
      min 2 ([3, 2, 1] : List ℚ).length :=
  claim1_topk_length [3, 2, 1] defaultClassNames 2 (by decide) (by decide) (by decide)

theorem filterMap_pred_ids (classNames : List (Str × PlantInfo))
    (sel : List (Nat × ℚ)) :
    ((sel.filterMap fun p =>
        (List.lookup (natToStr p.1) classNames).map fun info =>
          ({ classId := p.1, confidence := p.2, info := info } : PredictionRecord ℚ)).map
      (fun r => r.classId)) =
    ((sel.filter fun p =>
        (List.lookup (natToStr p.1) classNames).isSome).map Prod.fst) := by
  induction sel with
  | nil => simp
  | cons p t ih =>
    cases hl : List.lookup (natToStr p.1) classNames with
    | none => simp [List.filterMap_cons, List.filter_cons, hl, ih]
    | some info => simp [List.filterMap_cons, List.filter_cons, hl, ih]

/-- Claim C8 (confirmed): whenever the top-k selection succeeds, `predict`
returns success and its prediction list carries exactly the selected class
indices whose stringified id is a key of the taxonomy table, in rank
order — indices absent from the table are silently omitted and cause no
failure. -/
theorem claim8_absent_omitted (probs : List ℚ)
    (classNames : List (Str × PlantInfo)) (k : Nat) (hk : k ≤ probs.length) :
    (predict probs classNames k).success = true ∧
    (predict probs classNames k).predictions.map (fun r => r.classId) =
      ((topkAux k probs.enum).filter
        (fun p => (List.lookup (natToStr p.1) classNames).isSome)).map Prod.fst := by
  have hsel : topk probs k = some (topkAux k probs.enum) := by simp [topk, hk]
  exact ⟨by simp [predict, hsel], by
    simp only [predict, hsel]
    exact filterMap_pred_ids classNames _⟩

/-- Witness for `claim8_absent_omitted`: seven classes, `k = 2`; the top
selected index 6 is absent from the default five-entry table and is
omitted, the other selected index 0 is kept. -/
theorem claim8_absent_omitted_witness :
    (predict [1, 1, 1, 1, 1, 1, 4] defaultClassNames 2).success = true ∧
    (predict [1, 1, 1, 1, 1, 1, 4] defaultClassNames 2).predictions.map
        (fun r => r.classId) =
      ((topkAux 2 ([1, 1, 1, 1, 1, 1, 4] : List ℚ).enum).filter
        (fun p => (List.lookup (natToStr p.1) defaultClassNames).isSome)).map
        Prod.fst :=
  claim8_absent_omitted [1, 1, 1, 1, 1, 1, 4] defaultClassNames 2 (by decide)

/-- Claim C10 (confirmed): when the top-k selection succeeds but no selected
class index has a key in the taxonomy table, `predict` returns the
structurally valid empty result: success `True`, an empty prediction list,
and no top prediction. -/
theorem claim10_empty_success (probs : List ℚ)
    (classNames : List (Str × PlantInfo)) (k : Nat) (hk : k ≤ probs.length)
    (habs : ∀ p ∈ topkAux k probs.enum,
      List.lookup (natToStr p.1) classNames = none) :
    predict probs classNames k =
      { success := true, predictions := [], topPrediction := none } := by
  have hsel : topk probs k = some (topkAux k probs.enum) := by simp [topk, hk]
  have hnil : ((topkAux k probs.enum).filterMap fun p =>
      (List.lookup (natToStr p.1) classNames).map fun info =>
        ({ classId := p.1, confidence := p.2, info := info } : PredictionRecord ℚ)) = [] := by
    rw [List.filterMap_eq_nil_iff]
    intro a ha
    simp [habs a ha]
  simp [predict, hsel, hnil]

/-- Witness for `claim10_empty_success`: two classes, both selected, with a
taxonomy table whose only key is `9`. -/
theorem claim10_empty_success_witness :
    predict ([2, 1] : List ℚ)
        [(['9'], { name := ['x'], sciName := ['x'], family := ['x'] })] 2 =
      { success := true, predictions := [], topPrediction := none } :=
  claim10_empty_success [2, 1]
    [(['9'], { name := ['x'], sciName := ['x'], family := ['x'] })] 2
    (by decide) (by decide)

/-- Claim C7 (confirmed): for every checkpoint path condition — file
missing, `torch.load` failing, a checkpoint that is not a dict, an unknown
wrapper schema, or `load_state_dict` raising on mismatched or mis-sized
parameters — `load_model` returns a model instead of propagating any
exception: every path through the nested try/except ends in `.ok`, leaving
the weights either non-strictly loaded or randomly initialized. -/
theorem claim7_load_never_raises (pathExists : Bool)
    (torchLoad : Except PyErr PyVal)
    (applySD : List (Str × PyVal) → Except PyErr Unit) :
    ∃ t : WeightsTag, load_model pathExists torchLoad applySD = .ok t := by
  cases pathExists with
  | false => exact ⟨.randomInit, rfl⟩
  | true =>
    cases hl : loadAttempt torchLoad applySD with
    | ok t => exact ⟨t, by simp [load_model, hl]⟩
    | error epair =>
      obtain ⟨e, onsd⟩ := epair
      cases onsd with
      | none => exact ⟨.randomInit, by simp [load_model, hl]⟩
      | some nsd =>
        cases ha : applySD nsd with
        | ok u => exact ⟨.loadedNonStrict, by simp [load_model, hl, ha]⟩
        | error e2 => exact ⟨.randomInit, by simp [load_model, hl, ha]⟩

/-- Claim C5 (confirmed): `FreqTimeBridge.forward` computes exactly the
composition stated in the spec — layer norm, spectral gating, sequence to
grid reshape, channel/spatial attention fusion, grid to sequence reshape,
linear projection, then the original pre-normalization input plus the
projected branch scaled by the sigmoid of the learned scalar — and that
sigmoid factor lies strictly between 0 and 1. -/
theorem claim5_bridge_composition (B C H : Nat)
    (norm spectral : Seq B (H * H) C → Seq B (H * H) C)
    (attnModule : Grid B C H H → Grid B C H H)
    (proj : Seq B (H * H) C → Seq B (H * H) C)
    (alpha : ℝ) (x : Seq B (H * H) C) :
    FreqTimeBridge.forward norm spectral attnModule proj alpha x =
      FreqTimeBridge.forwardSpec norm spectral attnModule proj alpha x ∧
    0 < sigmoid alpha ∧ sigmoid alpha < 1 := by
  refine ⟨?_, ?_, ?_⟩
  · funext b n c
    simp only [FreqTimeBridge.forward, FreqTimeBridge.forwardSpec]
    ring
  · have h := Real.exp_pos (-alpha)
    unfold sigmoid
    positivity
  · unfold sigmoid
    rw [div_lt_one (by positivity)]
    have h := Real.exp_pos (-alpha)
    linarith

theorem dropoutT_eval {B : Nat} {ι : Type} (mask : Fin B → ι → ℝ)
    (x : TensorB B ι) : dropoutT false mask x = x := rfl

theorem dropPathT_eval {B : Nat} {ι : Type} (p : ℝ) (gate : Fin B → ℝ)
    (x : TensorB B ι) : dropPathT p false gate x = x := by
  unfold dropPathT
  rw [if_pos (Or.inr rfl)]

theorem mlpForward_evalId {B : Nat} {ι κ : Type} (f : MlpF B ι κ)
    (ns : MlpNoise B ι κ) (x : TensorB B ι) :
    Mlp.forward f false ns x = f.fc2 (f.act (f.fc1 x)) := rfl

theorem osrForward_evalId {B : Nat} {ι ω : Type} (f : AttnF B ι ω)
    (mask : Fin B → ω → ℝ) (x : TensorB B ι) :
    OSRAttention.forward f false mask x = f.post (f.softmaxW (f.pre x)) x := rfl

theorem blockForward_evalNoise {B : Nat} {ι κ : Type} (f : BlockF B ι κ)
    (ns1 ns2 : BlockNoise B ι κ) (x : TensorB B ι) :
    Block.forward f false ns1 x = Block.forward f false ns2 x := by
  unfold Block.forward
  simp only [mlpForward_evalId, dropPathT_eval]

theorem blockAttnForward_evalNoise {B : Nat} {ι κ ω : Type}
    (f : BlockAttnF B ι κ ω) (ns1 ns2 : BlockAttnNoise B ι κ ω)
    (x : TensorB B ι) :
    Block_attention.forward f false ns1 x = Block_attention.forward f false ns2 x := by
  unfold Block_attention.forward
  simp only [osrForward_evalId, mlpForward_evalId, dropPathT_eval]

theorem foldl_congr_fun {β σ : Type} {l : List β} {g1 g2 : σ → β → σ}
    (h : ∀ acc b, g1 acc b = g2 acc b) (init : σ) :
    l.foldl g1 init = l.foldl g2 init := by
  induction l generalizing init with
  | nil => rfl
  | cons a t ih =>
    rw [List.foldl_cons, List.foldl_cons, h]
    exact ih _

/-- Claim C9 (confirmed): in evaluation mode — the mode `load_model` puts
the model in before any `predict` call — the pipeline output does not
depend on any of the stochastic draws (`pos_drop`, drop-path gates, the
`Mlp` dropouts, `attn_drop`, `final_dropout`): two calls with the same
frozen weights and the same input produce the same ranked result, with the
same class indices in the same order and the same confidences. -/
theorem claim9_eval_deterministic {Img ι κ ω γ : Type} {K : Nat}
    (f : BryoFormerF 1 Img ι κ ω γ K) (ns1 ns2 : BryoFormerNoise 1 ι κ ω γ)
    (img : Img) (classNames : List (Str × PlantInfo)) (topK : Nat) :
    predictPipeline f false ns1 img classNames topK =
      predictPipeline f false ns2 img classNames topK := by
  have h3 : ∀ x2 : TensorB 1 ι,
      (List.finRange 4).foldl
          (fun acc i => Block.forward (f.blocks i) false (ns1.blocks i) acc) x2 =
        (List.finRange 4).foldl
          (fun acc i => Block.forward (f.blocks i) false (ns2.blocks i) acc) x2 :=
    fun x2 => foldl_congr_fun
      (fun acc i => blockForward_evalNoise (f.blocks i) (ns1.blocks i) (ns2.blocks i) acc) x2
  have h5 : ∀ x4 : TensorB 1 ι,
      (List.finRange 3).foldl
          (fun acc i =>
            Block_attention.forward (f.attnBlocks i) false (ns1.attnBlocks i) acc) x4 =
        (List.finRange 3).foldl
          (fun acc i =>
            Block_attention.forward (f.attnBlocks i) false (ns2.attnBlocks i) acc) x4 :=
    fun x4 => foldl_congr_fun
      (fun acc i =>
        blockAttnForward_evalNoise (f.attnBlocks i) (ns1.attnBlocks i)
          (ns2.attnBlocks i) acc) x4
  have hfwd : BryoFormer.forward f false ns1 img = BryoFormer.forward f false ns2 img := by
    simp only [BryoFormer.forward, dropoutT_eval]
    rw [h3, h5]
  unfold predictPipeline
  rw [hfwd]

end PlantApp
